import Mathlib

/-!
# Verification of the BLE beacon decoding and RSSI-to-distance pipeline

Shallow embedding of `src/bluetooth.py`:

* `parse_ibeacon`    : the iBeacon manufacturer-data decoder;
* `parse_eddystone`  : the Eddystone service-data decoder;
* `RecordRSSI` state : the per-address RSSI history (`record_data`), as an
  insertion-ordered association list mirroring a Python `dict`;
* `distanceCalculate`: the batch distance pipeline (Kalman smoothing plus the
  log-distance path-loss model).

Byte buffers are `List Nat` (each element a byte value 0–255); Python `bytes`
slicing, which silently truncates out-of-range slices, is modelled with
`List.drop`/`List.take`.  Exact rational arithmetic (`ℚ`) stands in for Python
floats; the transcendental `10 ** e` and the square root inside
`statistics.stdev` are handled parametrically (see `distanceLoop` and
`IsStdev`).
-/

/-- Lowercase hexadecimal digit character for `n < 16`, as produced by Python
`bytes.hex()`. -/
def hexDigit (n : Nat) : Char :=
  if n < 10 then Char.ofNat (48 + n) else Char.ofNat (87 + n)

/-- The two lowercase hex characters of one byte. -/
def byteHexChars (b : Nat) : List Char :=
  [hexDigit (b / 16), hexDigit (b % 16)]

/-- Python `bytes.hex()`: lowercase hex, two digits per byte, no separators. -/
def bytesHex (bs : List Nat) : String :=
  String.mk (bs.flatMap byteHexChars)

/-- Python `struct` format `b`: a byte reinterpreted as a signed 8-bit
integer. -/
def signedByte (b : Nat) : Int :=
  if b < 128 then (b : Int) else (b : Int) - 256

/-- Result record of `parse_ibeacon` (the Python dict
`{'type': 'iBeacon', 'uuid': …, 'major': …, 'minor': …, 'tx_power': …}`). -/
structure IBeaconRecord where
  uuid : String
  major : Nat
  minor : Nat
  tx_power : Int
deriving DecidableEq

/-- Embedding of `parse_ibeacon` from `src/bluetooth.py`.

The source checks `manufacturer_data[:4] != b'\x4c\x00\x02\x15'` and returns
`None`; otherwise it slices the UUID from bytes 4–19 and runs
`struct.unpack('>HHb', manufacturer_data[20:25])`.  When the buffer is shorter
than 25 bytes that slice holds fewer than 5 bytes, `struct.unpack` raises, and
the surrounding `try`/`except` returns `None`; that exception path is the
`length < 25` branch here. -/
def parse_ibeacon (manufacturer_data : List Nat) : Option IBeaconRecord :=
  if manufacturer_data.take 4 ≠ [0x4c, 0x00, 0x02, 0x15] then
    none
  else if manufacturer_data.length < 25 then
    none
  else
    some {
      uuid := bytesHex ((manufacturer_data.drop 4).take 16),
      major := 256 * manufacturer_data.getD 20 0 + manufacturer_data.getD 21 0,
      minor := 256 * manufacturer_data.getD 22 0 + manufacturer_data.getD 23 0,
      tx_power := signedByte (manufacturer_data.getD 24 0) }

/-- `true` for a UTF-8 continuation byte (`0x80–0xBF`). -/
def isUtf8Cont (b : Nat) : Bool :=
  0x80 ≤ b && b < 0xC0

/-- Strict UTF-8 decoding of a byte list into characters, as performed by
Python `bytes.decode('utf-8')`: rejects stray continuation bytes, overlong
encodings, surrogate code points and code points above `0x10FFFF`; `none`
models `UnicodeDecodeError`. -/
def utf8DecodeList : List Nat → Option (List Char)
  | [] => some []
  | b :: bs =>
    if b < 0x80 then
      (utf8DecodeList bs).map (fun cs => Char.ofNat b :: cs)
    else if b < 0xC2 then
      none
    else if b < 0xE0 then
      match bs with
      | b1 :: bs2 =>
        if isUtf8Cont b1 then
          (utf8DecodeList bs2).map
            (fun cs => Char.ofNat ((b - 0xC0) * 0x40 + (b1 - 0x80)) :: cs)
        else none
      | [] => none
    else if b < 0xF0 then
      match bs with
      | b1 :: b2 :: bs3 =>
        if isUtf8Cont b1 && isUtf8Cont b2 &&
            !(b == 0xE0 && b1 < 0xA0) && !(b == 0xED && 0xA0 ≤ b1) then
          (utf8DecodeList bs3).map
            (fun cs =>
              Char.ofNat ((b - 0xE0) * 0x1000 + (b1 - 0x80) * 0x40 + (b2 - 0x80)) :: cs)
        else none
      | _ => none
    else if b < 0xF5 then
      match bs with
      | b1 :: b2 :: b3 :: bs4 =>
        if isUtf8Cont b1 && isUtf8Cont b2 && isUtf8Cont b3 &&
            !(b == 0xF0 && b1 < 0x90) && !(b == 0xF4 && 0x90 ≤ b1) then
          (utf8DecodeList bs4).map
            (fun cs =>
              Char.ofNat ((b - 0xF0) * 0x40000 + (b1 - 0x80) * 0x1000 +
                (b2 - 0x80) * 0x40 + (b3 - 0x80)) :: cs)
        else none
      | _ => none
    else none

/-- Python `bytes.decode('utf-8')`, `none` for `UnicodeDecodeError`. -/
def utf8Decode (bs : List Nat) : Option String :=
  (utf8DecodeList bs).map String.mk

/-- Python `str.startswith`: code-point-wise comparison of the leading
characters. -/
def strStartsWith (s p : String) : Bool :=
  s.data.take p.data.length == p.data

/-- Result of `parse_eddystone`.  The source stores `'tx_power': data[1]`:
indexing a Python `bytes` yields the *unsigned* byte value, so the field is a
`Nat` (0–255), in contrast with `parse_ibeacon`, which decodes tx power with
the signed `struct` format `b`. -/
inductive EddystoneRecord where
  | uid (namespaceId : String) (instanceId : String) (tx_power : Nat)
  | url (urlText : String) (tx_power : Nat)
deriving DecidableEq

/-- Embedding of `parse_eddystone` from `src/bluetooth.py`.

The source iterates over `service_data.items()` (a Python dict iterates in
insertion order, modelled by the association list).  For an entry whose UUID
starts with `'0000feaa-'` it reads `data[0]`:

* frame type `0x00` returns `{'namespace': data[2:12].hex(),
  'instance': data[12:18].hex(), 'tx_power': data[1]}` — the slices truncate
  silently, so no minimum length beyond the `data[1]` access is enforced;
* frame type `0x10` returns `{'url': data[2:].decode('utf-8'),
  'tx_power': data[1]}`;
* any other frame type falls through and the loop continues with the next
  entry.

An `IndexError` from `data[0]`/`data[1]` or a `UnicodeDecodeError` from
`.decode` is caught by the surrounding `try`/`except`, which aborts the whole
scan with `None`; those are the `none` branches that do not recurse. -/
def parse_eddystone : List (String × List Nat) → Option EddystoneRecord
  | [] => none
  | (uuid, data) :: rest =>
    if strStartsWith uuid "0000feaa-" then
      match data with
      | [] => none
      | b0 :: tail =>
        if b0 = 0x00 then
          match tail with
          | [] => none
          | b1 :: _ =>
            some (.uid (bytesHex ((data.drop 2).take 10))
              (bytesHex ((data.drop 12).take 6)) b1)
        else if b0 = 0x10 then
          match tail with
          | [] => none
          | b1 :: bs2 =>
            match utf8Decode bs2 with
            | some s => some (.url s b1)
            | none => none
        else parse_eddystone rest
    else parse_eddystone rest

/-- State of a `RecordRSSI` instance: the Python dict `self.rssidict` mapping
a device address to its list of RSSI samples, modelled as an insertion-ordered
association list (Python dicts preserve insertion order and have unique
keys). -/
abbrev RssiDict := List (String × List Int)

/-- Embedding of `RecordRSSI.record_data` from `src/bluetooth.py`: if the
address has no entry yet a fresh one is appended at the end (dict insertion
order), otherwise the sample is appended to the existing list. -/
def record_data : RssiDict → String → Int → RssiDict
  | [], address, rssi => [(address, [rssi])]
  | (b, l) :: st, address, rssi =>
    if b = address then (b, l ++ [rssi]) :: st
    else (b, l) :: record_data st address rssi

/-- A whole session of `record_data` calls starting from the fresh state built
by `RecordRSSI.__init__` (the empty dict). -/
def recordRun (calls : List (String × Int)) : RssiDict :=
  calls.foldl (fun st c => record_data st c.1 c.2) []

/-- The samples recorded for one address by a sequence of calls, in call
order. -/
def recordedFor (a : String) (calls : List (String × Int)) : List Int :=
  (calls.filter (fun c => c.1 == a)).map (fun c => c.2)

/-- Errors of the distance pipeline.  `notFound` is the `KeyError` raised by
`rssi_dict[mac_address]` for an unknown address; `insufficientData` is the
`statistics.StatisticsError` raised by `stdev` on fewer than two samples;
`arithError` is an uncaught exception raised by the loop arithmetic itself —
the `ZeroDivisionError` of the exponent division when `txPower = 0`, or the
`OverflowError` of Python's float `10 **` on an exponent whose power falls
outside the double range.  None of these is caught inside
`distanceCalculate`; all propagate to the caller. -/
inductive DistanceError where
  | notFound
  | insufficientData
  | arithError
deriving DecidableEq

/-- Modelled from the spec: the `KalmanFilter` class of the `kalman` module,
which `src/bluetooth.py` imports but which is not present under `src/`.  Per
the spec it is a scalar filter constructed from
`(process_noise, measurement_noise)`; its state carries the running estimate
and error covariance, with the estimate initialised to the first sample and
the error covariance to `1.0`. -/
structure KalmanFilterState where
  processNoise : ℚ
  measurementNoise : ℚ
  est : ℚ
  errCov : ℚ
  initialized : Bool
deriving DecidableEq

/-- Modelled from the spec: `KalmanFilter(process_noise, measurement_noise)`
before any sample has been filtered. -/
def KalmanFilterState.init (q r : ℚ) : KalmanFilterState :=
  ⟨q, r, 0, 1, false⟩

/-- Modelled from the spec: one `KalmanFilter.filter(x)` call, returning the
filtered value and the updated state.  On the first sample the estimate is
initialised to the sample itself (output = raw value); afterwards the standard
scalar predict–update cycle runs: `P += Q`; `K = P / (P + R)`;
`est += K * (x - est)`; `P *= (1 - K)`. -/
def kalmanStep (s : KalmanFilterState) (x : ℚ) : ℚ × KalmanFilterState :=
  if s.initialized then
    let p := s.errCov + s.processNoise
    let k := p / (p + s.measurementNoise)
    let est := s.est + k * (x - s.est)
    (est, { s with est := est, errCov := p * (1 - k) })
  else
    (x, { s with est := x, errCov := 1, initialized := true })

/-- Python true division `a / b`: raises `ZeroDivisionError` when the divisor
is zero (`none` here), exact division otherwise. -/
def pyDiv (a b : ℚ) : Option ℚ :=
  if b = 0 then none else some (a / b)

/-- The loop body of `distanceCalculate`: for each sample `x` in recorded
order, `filteredValue = test.filter(x)`,
`raw_distance = 10**((mRSSI - x)/(10*txPower))` and
`filtered_distance = 10**((mRSSI - filteredValue)/(10*txPower))` are appended
to the two parallel arrays.

`pow10` is a parameter standing for Python's `10 ** e` on a float exponent:
it is not rational-valued (so it cannot be written here directly) and it is
partial — CPython raises `OverflowError` when the power exceeds the double
range (`none`).  The exponent division raises `ZeroDivisionError` when
`10 * txPower = 0` (`pyDiv`).  The source catches neither exception, so a
failure at any sample aborts the whole loop: `none`. -/
def distanceLoop (pow10 : ℚ → Option ℚ) (mRSSI txPower : ℚ)
    (s : KalmanFilterState) : List ℚ → Option (List ℚ × List ℚ)
  | [] => some ([], [])
  | x :: xs =>
    let fs := kalmanStep s x
    match pyDiv (mRSSI - x) (10 * txPower) with
    | none => none
    | some rawExp =>
      match pow10 rawExp with
      | none => none
      | some raw_distance =>
        match pyDiv (mRSSI - fs.1) (10 * txPower) with
        | none => none
        | some filteredExp =>
          match pow10 filteredExp with
          | none => none
          | some filtered_distance =>
            match distanceLoop pow10 mRSSI txPower fs.2 xs with
            | none => none
            | some rest =>
              some (raw_distance :: rest.1, filtered_distance :: rest.2)

/-- The sample variance `Σ (x - mean)² / (n - 1)` underlying Python
`statistics.stdev`. -/
def sampleVariance (xs : List ℚ) : ℚ :=
  let n : ℚ := xs.length
  let mean := xs.sum / n
  ((xs.map (fun x => (x - mean) ^ 2)).sum) / (n - 1)

/-- `IsStdev xs r` states that `r` is `statistics.stdev(xs)` (in exact real
arithmetic): the non-negative square root of the sample variance.  The square
root of a rational is not rational in general, so the pipeline takes the
noise as a parameter and the theorems constrain it with this predicate. -/
def IsStdev (xs : List ℚ) (r : ℚ) : Prop :=
  0 ≤ r ∧ r ^ 2 = sampleVariance xs

/-- Embedding of `distanceCalculate` from `src/bluetooth.py`.

The source reads the module-level `rssi_dict` (passed here explicitly), builds
`KalmanFilter(0.008, stdev(rssi_dict[mac_address]))` and runs the loop
(`distanceLoop`) over the history.  `rssi_dict[mac_address]` raises `KeyError`
for an unknown address (`notFound`); `stdev` raises on a history of fewer
than two samples (`insufficientData`).  `noise` stands for
`stdev(rssi_dict[mac_address])` (see `IsStdev`); `pow10` for `10 ** ·`. -/
def distanceCalculate (pow10 : ℚ → Option ℚ) (rssi_dict : RssiDict)
    (mac_address : String) (mRSSI txPower : ℚ) (noise : ℚ) :
    Except DistanceError (List ℚ × List ℚ) :=
  match rssi_dict.lookup mac_address with
  | none => .error .notFound
  | some hist =>
    if hist.length < 2 then .error .insufficientData
    else
      match distanceLoop pow10 mRSSI txPower
        (KalmanFilterState.init 0.008 noise)
        (hist.map (fun x => (x : ℚ))) with
      | none => .error .arithError
      | some series => .ok series

/-- The filtered distance series of a successful `distanceCalculate` run
(the `"filtered"` entry of the returned dict); `[]` on the error paths. -/
def filteredOf (res : Except DistanceError (List ℚ × List ℚ)) : List ℚ :=
  match res with
  | .ok s => s.2
  | .error _ => []

example : parse_ibeacon ([0x4c, 0x00, 0x02, 0x15] ++ List.replicate 16 0 ++
    [0x00, 0x01, 0x00, 0x02, 0xFE]) =
    some ⟨"00000000000000000000000000000000", 1, 2, -2⟩ := by decide

example : parse_eddystone
    [("0000feaa-0000-1000-8000-00805f9b34fb",
      [0x00, 0xEB] ++ List.replicate 10 0x01 ++ List.replicate 6 0x02)] =
    some (.uid "01010101010101010101" "020202020202" 235) := by decide

example : parse_eddystone
    [("0000feaa-0000-1000-8000-00805f9b34fb",
      [0x10, 0xEC, 104, 116, 116, 112, 58, 47, 47, 120])] =
    some (.url "http://x" 236) := by decide

example : parse_eddystone
    [("0000feaa-0000-1000-8000-00805f9b34fb", [0x00, 0xEB, 0x01])] =
    some (.uid "01" "" 235) := by decide

/-! ## Helper lemmas shared by several results -/

theorem lookup_record_data_self (st : RssiDict) (a : String) (r : Int) :
    (record_data st a r).lookup a = some (((st.lookup a).getD []) ++ [r]) := by
  induction st with
  | nil => simp [record_data, List.lookup]
  | cons p st ih =>
    obtain ⟨b, l⟩ := p
    by_cases h : b = a
    · subst h
      simp [record_data, List.lookup]
    · have hb : (a == b) = false := by
        simp only [beq_eq_false_iff_ne, ne_eq]
        exact fun hh => h (Eq.symm hh)
      simp [record_data, h, List.lookup, hb, ih]

theorem lookup_record_data_other (st : RssiDict) (a b : String) (r : Int)
    (hba : b ≠ a) : (record_data st a r).lookup b = st.lookup b := by
  have hb : (b == a) = false := by simp [hba]
  induction st with
  | nil => simp [record_data, List.lookup, hb]
  | cons p st ih =>
    obtain ⟨c, l⟩ := p
    by_cases h : c = a
    · subst h
      simp [record_data, List.lookup, hb]
    · simp [record_data, h, List.lookup, ih]

theorem recordedFor_cons (a : String) (c : String × Int)
    (calls : List (String × Int)) :
    recordedFor a (c :: calls) =
      if c.1 = a then c.2 :: recordedFor a calls else recordedFor a calls := by
  by_cases h : c.1 = a
  · have hb : (c.1 == a) = true := by simp [h]
    simp [recordedFor, List.filter, hb, h]
  · have hb : (c.1 == a) = false := by simp [h]
    simp [recordedFor, List.filter, hb, h]

theorem lookup_foldl_record (calls : List (String × Int)) :
    ∀ (st : RssiDict) (a : String),
    (calls.foldl (fun st c => record_data st c.1 c.2) st).lookup a =
      match st.lookup a with
      | some l => some (l ++ recordedFor a calls)
      | none =>
        if recordedFor a calls = [] then none
        else some (recordedFor a calls) := by
  induction calls with
  | nil =>
    intro st a
    cases h : st.lookup a <;> simp [recordedFor, h]
  | cons c rest ih =>
    intro st a
    obtain ⟨b, r⟩ := c
    have step : (((b, r) :: rest).foldl
        (fun st c => record_data st c.1 c.2) st) =
        rest.foldl (fun st c => record_data st c.1 c.2) (record_data st b r) := by
      simp
    rw [step, ih, recordedFor_cons]
    by_cases hba : b = a
    · subst hba
      rw [lookup_record_data_self]
      cases h : st.lookup b <;> simp [h]
    · rw [lookup_record_data_other st b a r (fun hh => hba (Eq.symm hh))]
      simp [hba]

theorem bytesHex_length (bs : List Nat) :
    (bytesHex bs).length = 2 * bs.length := by
  induction bs with
  | nil => rfl
  | cons b bs ih =>
    simp only [bytesHex, String.length] at ih ⊢
    simp [List.flatMap_cons, byteHexChars] at ih ⊢
    omega

/-! ## Claim theorems -/

/-- C6: `parse_ibeacon` is total (it returns an `Option`, never raising), and
returns no-match whenever the first four bytes differ from the iBeacon header
`4C 00 02 15` (in particular for every buffer shorter than 4 bytes, whose
4-byte slice is shorter than the header) or the buffer is shorter than 25
bytes. -/
theorem parse_ibeacon_nomatch_of_malformed (buf : List Nat)
    (h : buf.take 4 ≠ [0x4c, 0x00, 0x02, 0x15] ∨ buf.length < 25) :
    parse_ibeacon buf = none := by
  rcases h with h | h
  · simp [parse_ibeacon, h]
  · by_cases hp : buf.take 4 = [0x4c, 0x00, 0x02, 0x15]
    · simp [parse_ibeacon, hp, h]
    · simp [parse_ibeacon, hp]

/-- Witness for C6: the empty buffer (shorter than 4 bytes) and a 24-byte
buffer with a correct header both decode to no-match. -/
theorem parse_ibeacon_nomatch_of_malformed_witness :
    parse_ibeacon [] = none ∧
    parse_ibeacon ([0x4c, 0x00, 0x02, 0x15] ++ List.replicate 20 0) = none :=
  ⟨parse_ibeacon_nomatch_of_malformed [] (Or.inl (by decide)),
   parse_ibeacon_nomatch_of_malformed _ (Or.inr (by decide))⟩

/-- C8: on `4C 00 02 15` followed by 16 zero bytes and `00 01 00 02 FE`,
`parse_ibeacon` returns uuid = 32 zero hex digits (lowercase, no separators),
major = 1, minor = 2 (big-endian unsigned 16-bit) and tx_power = −2 (byte 24
as signed 8-bit). -/
theorem parse_ibeacon_test_vector :
    parse_ibeacon ([0x4c, 0x00, 0x02, 0x15] ++ List.replicate 16 0 ++
      [0x00, 0x01, 0x00, 0x02, 0xFE]) =
      some ⟨"00000000000000000000000000000000", 1, 2, -2⟩ := by
  decide

/-- C9: for every finite sequence of `record_data` calls starting from the
fresh recorder, looking up an address returns exactly the values recorded for
that address in insertion order — and an entry exists exactly when the address
was recorded at least once (the sequence is created on first sighting). -/
theorem record_roundtrip (calls : List (String × Int)) (a : String) :
    (recordRun calls).lookup a =
      if recordedFor a calls = [] then none
      else some (recordedFor a calls) := by
  rw [recordRun, lookup_foldl_record]
  simp [List.lookup]

/-- C10: `record_data` appends exactly the given sample to the addressed
sequence (creating it from `[]` if absent) and leaves the history of every
other address unchanged. -/
theorem record_data_frame_effect (st : RssiDict) (a : String) (r : Int) :
    (record_data st a r).lookup a = some (((st.lookup a).getD []) ++ [r]) ∧
    ∀ b, b ≠ a → (record_data st a r).lookup b = st.lookup b :=
  ⟨lookup_record_data_self st a r,
   fun b hb => lookup_record_data_other st a b r hb⟩

/-- Witness for C10: recording for a new address `"y"` appends `[2]` and
leaves the existing history of `"x"` untouched. -/
theorem record_data_frame_effect_witness :
    (record_data [("x", [1])] "y" 2).lookup "x" = some [(1 : Int)] ∧
    (record_data [("x", [1])] "y" 2).lookup "y" = some [(2 : Int)] :=
  ⟨((record_data_frame_effect [("x", [1])] "y" 2).2 "x" (by decide)).trans
      (by decide),
   ((record_data_frame_effect [("x", [1])] "y" 2).1).trans (by decide)⟩

/-- Counterexample to C1: a UID-frame Eddystone payload of only 3 bytes
(shorter than the 18 bytes the spec requires) is *not* rejected:
`parse_eddystone` returns a partial record whose namespace hex is truncated to
the one available byte and whose instance hex is empty. -/
theorem eddystone_short_uid_partial_record :
    parse_eddystone
      [("0000feaa-0000-1000-8000-00805f9b34fb", [0x00, 0xEB, 0x01])] =
      some (.uid "01" "" 235) ∧
    parse_eddystone
      [("0000feaa-0000-1000-8000-00805f9b34fb", [0x00, 0xEB, 0x01])] ≠
      none := by
  exact ⟨by decide, by decide⟩

/-- C1 (amended): for a first Eddystone entry with UID frame type `0x00`,
`parse_eddystone` returns no-match only when the payload is shorter than
2 bytes (the `data[1]` access raises); for every payload of at least 2 bytes
it returns a UID record whose namespace and instance hex strings are built
from bytes 2–11 and 12–17 *truncated to the bytes actually present* — for
payloads shorter than 18 bytes the record is partial, not no-match. -/
theorem eddystone_uid_truncation (uuid : String) (data : List Nat)
    (rest : List (String × List Nat))
    (hu : strStartsWith uuid "0000feaa-" = true)
    (h0 : data.head? = some 0x00) :
    (data.length < 2 → parse_eddystone ((uuid, data) :: rest) = none) ∧
    (2 ≤ data.length →
      parse_eddystone ((uuid, data) :: rest) =
        some (.uid (bytesHex ((data.drop 2).take 10))
          (bytesHex ((data.drop 12).take 6)) (data.getD 1 0)) ∧
      (bytesHex ((data.drop 2).take 10)).length = 2 * min 10 (data.length - 2) ∧
      (bytesHex ((data.drop 12).take 6)).length = 2 * min 6 (data.length - 12)) := by
  cases data with
  | nil => simp at h0
  | cons b0 tail =>
    have hb0 : b0 = 0 := by simpa using h0
    subst hb0
    cases tail with
    | nil =>
      constructor
      · intro _
        simp [parse_eddystone, hu]
      · intro h2
        simp at h2
    | cons b1 tail2 =>
      constructor
      · intro hlt
        simp only [List.length_cons] at hlt
        omega
      · intro _
        refine ⟨by simp [parse_eddystone, hu], ?_, ?_⟩
        · rw [bytesHex_length]
          simp only [List.length_take, List.length_drop, List.length_cons]
        · rw [bytesHex_length]
          simp only [List.length_take, List.length_drop, List.length_cons]

/-- Witness for C1 (amended) at the 3-byte payload `[0x00, 0xEB, 0x01]`. -/
theorem eddystone_uid_truncation_witness :
    parse_eddystone
      [("0000feaa-0000-1000-8000-00805f9b34fb", [0, 235, 1])] =
      some (.uid (bytesHex (([0, 235, 1].drop 2).take 10))
        (bytesHex (([0, 235, 1].drop 12).take 6)) ([0, 235, 1].getD 1 0)) ∧
    (bytesHex (([0, 235, 1].drop 2).take 10)).length =
      2 * min 10 ([0, 235, 1].length - 2) ∧
    (bytesHex (([0, 235, 1].drop 12).take 6)).length =
      2 * min 6 ([0, 235, 1].length - 12) :=
  (eddystone_uid_truncation "0000feaa-0000-1000-8000-00805f9b34fb"
    [0, 235, 1] [] (by decide) (by decide)).2 (by decide)

/-- C2 (evaluation of the code on the claim's failing inputs): on the spec's
UID test vector (`data[1] = 0xEB`) the code returns `tx_power = 235`, the raw
unsigned byte, not the signed value −21; on the URL test vector
(`data[1] = 0xEC`) it returns 236, not −20.  The namespace, instance and URL
fields do match the claim. -/
theorem eddystone_tx_power_unsigned_eval :
    parse_eddystone
      [("0000feaa-0000-1000-8000-00805f9b34fb",
        [0x00, 0xEB] ++ List.replicate 10 0x01 ++ List.replicate 6 0x02)] =
      some (.uid "01010101010101010101" "020202020202" 235) ∧
    parse_eddystone
      [("0000feaa-0000-1000-8000-00805f9b34fb",
        [0x10, 0xEC, 104, 116, 116, 112, 58, 47, 47, 120])] =
      some (.url "http://x" 236) := by
  exact ⟨by decide, by decide⟩

/-- Counterexample to C4: the first Eddystone-tagged entry has the
unrecognized frame type `0x05`, yet the result is not no-match — the loop
continues and decodes the *later* Eddystone entry. -/
theorem eddystone_unknown_frame_not_nomatch :
    parse_eddystone
      [("0000feaa-aaaa", [0x05, 0x01]),
       ("0000feaa-0000-1000-8000-00805f9b34fb",
        [0x00, 0xAA] ++ List.replicate 10 0x03 ++ List.replicate 6 0x04)] =
      some (.uid "03030303030303030303" "040404040404" 170) := by
  decide

/-- C4 (amended): an Eddystone-tagged entry whose (present) frame type byte is
neither `0x00` nor `0x10` is *skipped*: decoding continues with the remaining
entries exactly as if the entry were absent, so a later Eddystone entry can
still be decoded; no-match results only when no remaining entry decodes. -/
theorem eddystone_unknown_frame_skip (uuid : String) (b0 : Nat)
    (tail : List Nat) (rest : List (String × List Nat))
    (hu : strStartsWith uuid "0000feaa-" = true)
    (h1 : b0 ≠ 0x00) (h2 : b0 ≠ 0x10) :
    parse_eddystone ((uuid, b0 :: tail) :: rest) = parse_eddystone rest := by
  simp [parse_eddystone, hu, h1, h2]

/-- Witness for C4 (amended): the unrecognized-frame entry `[0x05, 0x01]` is
skipped in favour of the rest of the mapping. -/
theorem eddystone_unknown_frame_skip_witness :
    parse_eddystone
      [("0000feaa-aaaa", [0x05, 0x01]),
       ("0000feaa-0000-1000-8000-00805f9b34fb",
        [0x00, 0xAA] ++ List.replicate 10 0x03 ++ List.replicate 6 0x04)] =
      parse_eddystone
        [("0000feaa-0000-1000-8000-00805f9b34fb",
          [0x00, 0xAA] ++ List.replicate 10 0x03 ++ List.replicate 6 0x04)] :=
  eddystone_unknown_frame_skip "0000feaa-aaaa" 0x05 [0x01] _
    (by decide) (by decide) (by decide)

/-- In the loop, every exponent division succeeds when `txPower ≠ 0`, so the
loop returns both series whenever the exponential itself never fails. -/
theorem distanceLoop_total_of_nonzero (pow10 : ℚ → Option ℚ)
    (mRSSI txPower : ℚ) (h10 : (10 : ℚ) * txPower ≠ 0)
    (htot : ∀ e, ∃ y, pow10 e = some y) :
    ∀ (xs : List ℚ) (s : KalmanFilterState), ∃ pair,
      distanceLoop pow10 mRSSI txPower s xs = some pair := by
  intro xs
  induction xs with
  | nil => exact fun s => ⟨([], []), rfl⟩
  | cons x xs ih =>
    intro s
    obtain ⟨pair, hp⟩ := ih (kalmanStep s x).2
    obtain ⟨y1, hy1⟩ := htot ((mRSSI - x) / (10 * txPower))
    obtain ⟨y2, hy2⟩ := htot ((mRSSI - (kalmanStep s x).1) / (10 * txPower))
    exact ⟨(y1 :: pair.1, y2 :: pair.2), by
      simp [distanceLoop, pyDiv, h10, hp, hy1, hy2]⟩

/-- Counterexample to C7: a recorded history of exactly 2 samples on which
`distanceCalculate` does *not* succeed — with path-loss exponent
`txPower = 0` the exponent computation `(mRSSI - x)/(10*txPower)` raises
`ZeroDivisionError` on the very first sample, which nothing catches, so the
run fails instead of returning a series. -/
theorem distanceCalculate_two_samples_raises :
    distanceCalculate (fun e => some e) [("b", [-60, -60])] "b" (-59) 0 1 =
      .error .arithError := by
  simp [distanceCalculate, distanceLoop, pyDiv, List.lookup]

/-- C7 (amended): `distanceCalculate` fails with `notFound` (the `KeyError`)
for an address never recorded and with `insufficientData` (the
`statistics.StatisticsError` from `stdev`) for a history of fewer than 2
samples; for a history of at least 2 samples it succeeds — returning the two
parallel series — provided the loop arithmetic itself raises nothing: the
path-loss exponent is nonzero (no `ZeroDivisionError`) and every `10 **`
evaluation stays in range (no `OverflowError`, here: `pow10` total). -/
theorem distanceCalculate_errors_and_success (pow10 : ℚ → Option ℚ)
    (dict : RssiDict) (mac : String) (mRSSI txPower noise : ℚ) :
    (dict.lookup mac = none →
      distanceCalculate pow10 dict mac mRSSI txPower noise =
        .error .notFound) ∧
    (∀ hist, dict.lookup mac = some hist → hist.length < 2 →
      distanceCalculate pow10 dict mac mRSSI txPower noise =
        .error .insufficientData) ∧
    (∀ hist, dict.lookup mac = some hist → 2 ≤ hist.length →
      txPower ≠ 0 → (∀ e, ∃ y, pow10 e = some y) →
      ∃ series, distanceCalculate pow10 dict mac mRSSI txPower noise =
        .ok series) := by
  refine ⟨fun h => ?_, fun hist h hlen => ?_, fun hist h hlen htx htot => ?_⟩
  · simp [distanceCalculate, h]
  · simp [distanceCalculate, h, hlen]
  · obtain ⟨pair, hp⟩ := distanceLoop_total_of_nonzero pow10 mRSSI txPower
      (mul_ne_zero (by norm_num) htx) htot
      (hist.map (fun x => (x : ℚ))) (KalmanFilterState.init 0.008 noise)
    have hrun : distanceCalculate pow10 dict mac mRSSI txPower noise =
        .ok pair := by
      simp only [distanceCalculate, h]
      rw [if_neg (by omega), hp]
    exact ⟨pair, hrun⟩

/-- Witness for C7 (amended): an unknown address, a one-sample history and a
two-sample history with nonzero path-loss exponent hit the three branches. -/
theorem distanceCalculate_errors_and_success_witness :
    distanceCalculate (fun e => some e) [("a", [-60]), ("b", [-60, -60])] "c"
      (-59) 2 1 = .error .notFound ∧
    distanceCalculate (fun e => some e) [("a", [-60]), ("b", [-60, -60])] "a"
      (-59) 2 1 = .error .insufficientData ∧
    ∃ series, distanceCalculate (fun e => some e)
      [("a", [-60]), ("b", [-60, -60])] "b" (-59) 2 1 = .ok series :=
  ⟨(distanceCalculate_errors_and_success (fun e => some e) _ "c" _ _ _).1
      (by decide),
   (distanceCalculate_errors_and_success (fun e => some e) _ "a" _ _ _).2.1
      [-60] (by decide) (by decide),
   (distanceCalculate_errors_and_success (fun e => some e) _ "b" _ _ _).2.2
      [-60, -60] (by decide) (by decide) (by norm_num)
      (fun e => ⟨e, rfl⟩)⟩

/-- C3: running the pipeline on the history `[-60, -60, -60]` and on its
extension `[-60, -60, -60, -40]` — with the measurement noise of each run
being the standard deviation of that run's full history, as the code computes
it — both runs succeed and the filtered distances at indices 0, 1 and 2
coincide: the extra fourth sample does not change the first three filtered
outputs, whatever reference RSSI and (nonzero) path-loss exponent are used
and whatever values the exponential takes on this run's exponents. -/
theorem distance_pipeline_no_lookahead (pow10 : ℚ → ℚ)
    (mRSSI txPower r1 r2 : ℚ) (htx : txPower ≠ 0)
    (h1 : IsStdev [-60, -60, -60] r1)
    (h2 : IsStdev [-60, -60, -60, -40] r2) :
    (distanceCalculate (fun e => some (pow10 e)) [("d", [-60, -60, -60])] "d"
      mRSSI txPower r1).isOk = true ∧
    (distanceCalculate (fun e => some (pow10 e))
      [("d", [-60, -60, -60, -40])] "d" mRSSI txPower r2).isOk = true ∧
    (filteredOf (distanceCalculate (fun e => some (pow10 e))
      [("d", [-60, -60, -60])] "d" mRSSI txPower r1)).length = 3 ∧
    (filteredOf (distanceCalculate (fun e => some (pow10 e))
      [("d", [-60, -60, -60, -40])] "d" mRSSI txPower r2)).take 3 =
      filteredOf (distanceCalculate (fun e => some (pow10 e))
        [("d", [-60, -60, -60])] "d" mRSSI txPower r1) := by
  have h10 : (10 : ℚ) * txPower ≠ 0 := mul_ne_zero (by norm_num) htx
  have hv1 : sampleVariance [-60, -60, -60] = 0 := by
    norm_num [sampleVariance]
  have hv2 : sampleVariance [-60, -60, -60, -40] = 100 := by
    norm_num [sampleVariance]
  obtain ⟨h1n, h1v⟩ := h1
  obtain ⟨h2n, h2v⟩ := h2
  have hr1 : r1 = 0 := by
    have h := h1v.trans hv1
    exact (pow_eq_zero_iff (by norm_num)).mp h
  have hr2 : r2 = 10 := by
    have h : (r2 - 10) * (r2 + 10) = 0 := by
      linear_combination h2v + hv2
    rcases mul_eq_zero.mp h with h | h
    · linarith
    · linarith
  subst hr1
  subst hr2
  refine ⟨?_, ?_, ?_, ?_⟩ <;>
    simp [distanceCalculate, filteredOf, distanceLoop, pyDiv, kalmanStep,
      KalmanFilterState.init, Except.isOk, Except.toBool, List.lookup, h10]

/-- Witness for C3: instantiated with the identity as exponential,
reference RSSI −59, path-loss exponent 2, and the concrete standard
deviations 0 and 10 of the two histories. -/
theorem distance_pipeline_no_lookahead_witness :
    (distanceCalculate (fun e => some e) [("d", [-60, -60, -60])] "d"
      (-59) 2 0).isOk = true ∧
    (distanceCalculate (fun e => some e) [("d", [-60, -60, -60, -40])] "d"
      (-59) 2 10).isOk = true ∧
    (filteredOf (distanceCalculate (fun e => some e)
      [("d", [-60, -60, -60])] "d" (-59) 2 0)).length = 3 ∧
    (filteredOf (distanceCalculate (fun e => some e)
      [("d", [-60, -60, -60, -40])] "d" (-59) 2 10)).take 3 =
      filteredOf (distanceCalculate (fun e => some e)
        [("d", [-60, -60, -60])] "d" (-59) 2 0) :=
  distance_pipeline_no_lookahead (fun e => e) (-59) 2 0 10 (by norm_num)
    ⟨by norm_num, by norm_num [sampleVariance]⟩
    ⟨by norm_num, by norm_num [sampleVariance]⟩
